import Mathlib

/-!
Verification development for the Zotero voice assistant
(`src/zotero_voice_assistant`).  The Python sources are shallowly embedded:
pure helpers become Lean functions on `List Char` / `String`, the session
pipeline becomes a function from an environment oracle (the external
capture / transcription / intent / search collaborators) to the trace of
emitted events plus the final controller state.  Python string operations
are modelled over ASCII (`str.strip`, `str.lower`); floats that the
control flow never inspects (`confidence`, peak level) are modelled as
rationals or dropped where unused.
-/

namespace ZVA

/-- ASCII/Python whitespace recognised by `str.strip()`. -/
def isPySpace (c : Char) : Bool :=
  c = ' ' || c = '\t' || c = '\n' || c = '\r' || c = '\x0b' || c = '\x0c'

/-- Python `s.strip()`: drop whitespace from both ends. -/
def pyStrip (s : List Char) : List Char :=
  ((s.dropWhile isPySpace).reverse.dropWhile isPySpace).reverse

/-- Python `s.strip(chars)`: drop any of the given characters from both ends. -/
def pyStripSet (cs : List Char) (s : List Char) : List Char :=
  ((s.dropWhile (fun c => cs.contains c)).reverse.dropWhile
      (fun c => cs.contains c)).reverse

/-- Python `s.lower()`, ASCII fragment. -/
def pyLower (s : List Char) : List Char :=
  s.map Char.toLower

/-- Python `haystack.index(needle)` / `needle in haystack`: index of the
first occurrence of `needle` as a contiguous sublist, if any. -/
def findSub (needle : List Char) : List Char → Option Nat
  | [] => if needle = [] then some 0 else none
  | c :: rest =>
    if needle.isPrefixOf (c :: rest) then some 0
    else (findSub needle rest).map (fun n => n + 1)

/-- `s.strip()` on a `String`. -/
def pyStripStr (s : String) : String :=
  String.mk (pyStrip s.data)

/-- The punctuation set `",.:"` used by `_extract_query`. -/
def queryPunct : List Char := [',', '.', ':']

/-- The loop body of `AssistantController._extract_query`
(`controller.py`): scan the configured activation keywords in order; for
the first non-empty keyword occurring in the lowered transcript, return
the remainder after it, stripped of whitespace and then of `",.:"`,
falling back to the full stripped transcript when that remainder is
empty; if no keyword matches, return the stripped transcript. -/
def scanKeywords (stripped lowered : List Char) : List (List Char) → List Char
  | [] => stripped
  | k :: ks =>
    if k = [] then scanKeywords stripped lowered ks
    else
      match findSub k lowered with
      | none => scanKeywords stripped lowered ks
      | some i =>
        let remainder := pyStripSet queryPunct (pyStrip (stripped.drop (i + k.length)))
        if remainder = [] then stripped else remainder

/-- `AssistantController._extract_query` (`controller.py`): `None` when the
transcript is whitespace-only, otherwise the scanned query. -/
def extractQuery (keywords : List String) (transcript : String) : Option String :=
  let stripped := pyStrip transcript.data
  if stripped = [] then none
  else
    let lowered := pyLower stripped
    some (String.mk (scanKeywords stripped lowered (keywords.map String.data)))

/-- The default `activation_keywords` from `config.AppSettings`; the
configuration loader (`get_settings`) never overrides them. -/
def defaultActivationKeywords : List String :=
  ["citation assistant", "find paper"]

/-! ## Zotero item model (`zotero_client.py`)

Items are the JSON dictionaries returned by the Zotero backend.  The core
reads `key`, the nested `data` dictionary (title, creators, date, url,
and for attachments contentType and path) and the nested `links`
dictionary (`enclosure`/`alternate` hrefs).  `dict.get` with a default of
`""` becomes a plain `String` field; `dict.get` defaulting to `None`
becomes `Option String`. -/

/-- One entry of `data["creators"]`; `creator.get("firstName", "")` and
`creator.get("lastName", "")`. -/
structure Creator where
  firstName : String
  lastName : String
deriving DecidableEq, Repr

/-- The `data` dictionary of an item or attachment. -/
structure ItemData where
  title : String
  creators : List Creator
  date : String
  url : Option String
  contentType : Option String
  path : Option String
deriving DecidableEq, Repr

/-- The `links` dictionary: `links["enclosure"]["href"]` and
`links["alternate"]["href"]`, absent levels collapsing to `none`. -/
structure ItemLinks where
  enclosure : Option String
  alternate : Option String
deriving DecidableEq, Repr

/-- A Zotero item (or attachment) as consumed by the core. -/
structure Item where
  key : String
  data : ItemData
  links : ItemLinks
deriving DecidableEq, Repr

/-- Python truthiness of an optional string: `None` and `""` are falsy. -/
def optTruthy (o : Option String) : Bool :=
  o.getD "" ≠ ""

/-- `zotero_client._fuzzy_match`.  The call
`SequenceMatcher(None, e, a).ratio() >= 0.55` is a Python-stdlib
collaborator, abstracted as the parameter `ratioAtLeast`. -/
def fuzzyMatch (ratioAtLeast : List Char → List Char → Bool)
    (expected actual : List Char) : Bool :=
  let e := pyStrip (pyLower expected)
  let a := pyStrip (pyLower actual)
  if e = [] then true
  else if (findSub e a).isSome then true
  else ratioAtLeast e a

/-- `zotero_client._authors_as_text`: join each creator's non-empty
stripped name parts with a space, then the non-empty names with `", "`. -/
def authorsAsText (data : ItemData) : List Char :=
  let names := data.creators.map (fun c =>
    let first := pyStrip c.firstName.data
    let last := pyStrip c.lastName.data
    List.intercalate [' '] ([first, last].filter (fun p => p ≠ [])))
  List.intercalate [',', ' '] (names.filter (fun n => n ≠ []))

/-- Leftmost occurrence of four consecutive decimal digits
(`re.search(r"\d{4}", raw_date)`), returning the matched digits. -/
def findFourDigits : List Char → Option (List Char)
  | a :: b :: c :: d :: rest =>
    if a.isDigit && b.isDigit && c.isDigit && d.isDigit then some [a, b, c, d]
    else findFourDigits (b :: c :: d :: rest)
  | _ => none

/-- `zotero_client._year_matches`: the first four-digit sequence of the
raw date must equal the stripped expected year. -/
def yearMatches (expectedYear : List Char) (rawDate : List Char) : Bool :=
  if expectedYear = [] then true
  else
    match findFourDigits rawDate with
    | none => false
    | some ds => ds = pyStrip expectedYear

/-- The per-item filter conditions of `search_by_fields`'s loop: an item
survives when every truthy filter accepts it. -/
def itemPassesFilters (ratioAtLeast : List Char → List Char → Bool)
    (author title year : Option String) (item : Item) : Bool :=
  (!optTruthy author
      || fuzzyMatch ratioAtLeast (author.getD "").data (authorsAsText item.data)) &&
  (!optTruthy title
      || fuzzyMatch ratioAtLeast (title.getD "").data item.data.title.data) &&
  (!optTruthy year
      || yearMatches (year.getD "").data item.data.date.data)

/-- The `for item in candidates` loop of `search_by_fields`: append each
passing item, and break once `len(filtered) >= limit` (checked after the
append, with `acc` the number of items already collected). -/
def filterLoop (ratioAtLeast : List Char → List Char → Bool)
    (author title year : Option String) (limit : Int) (acc : Nat) :
    List Item → List Item
  | [] => []
  | item :: rest =>
    if itemPassesFilters ratioAtLeast author title year item then
      if ((acc : Int) + 1) ≥ limit then [item]
      else item :: filterLoop ratioAtLeast author title year limit (acc + 1) rest
    else filterLoop ratioAtLeast author title year limit acc rest

/-- `ZoteroClient.search_by_fields`.  The backend call
`self._library.items(q=..., limit=...)` is the parameter
`libraryItems`; a `ValueError` becomes `Except.error`. -/
def search_by_fields (ratioAtLeast : List Char → List Char → Bool)
    (libraryItems : String → Int → List Item)
    (author title year : Option String) (limit : Int) :
    Except String (List Item) :=
  if !(optTruthy author || optTruthy title || optTruthy year) then
    .error "At least one search parameter is required"
  else
    let searchTerms :=
      String.mk (List.intercalate [' ']
        (([author, title, year].filterMap id).filterMap
          (fun t => if t ≠ "" then some t.data else none)))
    let seedResults := max (limit * 3) 20
    let candidates := libraryItems searchTerms seedResults
    .ok (filterLoop ratioAtLeast author title year limit 0 candidates)

/-- The PDF-attachment scan of `ZoteroClient.get_attachment_or_url`:
first attachment with `contentType == "application/pdf"` carrying a
truthy `path`, else a truthy enclosure href; attachments with neither are
skipped. -/
def firstPdfLocation : List Item → Option String
  | [] => none
  | att :: rest =>
    if att.data.contentType ≠ some "application/pdf" then firstPdfLocation rest
    else if optTruthy att.data.path then att.data.path
    else if optTruthy att.links.enclosure then att.links.enclosure
    else firstPdfLocation rest

/-- `ZoteroClient.get_attachment_or_url`; `self._library.children(key)`
is passed in as the `attachments` list. -/
def get_attachment_or_url (attachments : List Item) (item : Item) : Option String :=
  match firstPdfLocation attachments with
  | some loc => some loc
  | none =>
    if optTruthy item.data.url then item.data.url
    else if optTruthy item.links.alternate then item.links.alternate
    else none

/-- Spec-side description for location resolution: the ordered list of
available locations — each PDF attachment's location (local path,
else enclosure URL), then the item's generic URL, then its alternate
link. -/
def pdfLocationOf (att : Item) : Option String :=
  if att.data.contentType = some "application/pdf" then
    if optTruthy att.data.path then some (att.data.path.getD "")
    else if optTruthy att.links.enclosure then some (att.links.enclosure.getD "")
    else none
  else none

/-- Spec-side description for location resolution (continued): all
available locations in preference order. -/
def specLocationCandidates (attachments : List Item) (item : Item) : List String :=
  attachments.filterMap pdfLocationOf
  ++ (if optTruthy item.data.url then [item.data.url.getD ""] else [])
  ++ (if optTruthy item.links.alternate then [item.links.alternate.getD ""] else [])

/-! ## Intent model (`openai_client.py`) -/

/-- `openai_client.SearchIntent`.  `confidence` is a Python float never
inspected by the control flow; modelled as a rational. -/
structure SearchIntent where
  raw_query : String
  search_terms : String
  author : Option String
  title : Option String
  year : Option String
  confidence : ℚ
deriving DecidableEq, Repr

/-- `SearchIntent.has_structured_filters`:
`any(value for value in (self.author, self.title, self.year))`. -/
def SearchIntent.has_structured_filters (i : SearchIntent) : Bool :=
  optTruthy i.author || optTruthy i.title || optTruthy i.year

/-! ## Session pipeline (`controller.py`)

The controller is embedded as pure functions from an environment
`Oracle` — the behaviour of the external capture / transcription /
intent / search / retry-prompt collaborators during one run — to the
ordered list of emitted observer events, the retry prompts issued, the
Search Port calls made, and the final controller state.  The real code
runs the pipeline on a background thread; the model serialises `start()`'s
own emissions before the run's (the two claims about event order are
within a single context). -/

/-- One observer notification (`_push_status`, `_log`,
`_push_transcript`, `_push_recording_state`, `_push_results`). -/
inductive Event where
  | status (active : Bool)
  | log (msg : String)
  | transcript (text : String)
  | recording (active : Bool)
  | results (items : List Item)
deriving DecidableEq, Repr

/-- A call made to the Search Port by `_run_search`. -/
inductive SearchCall where
  | byFields (author title year : Option String)
  | byKeyword (terms : String) (qmode : Option String)
deriving DecidableEq, Repr

/-- Whether a Search Port call carries the expand query mode
(`qmode="everything"`). -/
def SearchCall.isExpand : SearchCall → Bool
  | .byKeyword _ qmode => qmode = some "everything"
  | .byFields _ _ _ => false

/-- Outcome of `AudioCaptureService.record_snippet` as observed by the
pipeline: `RecordingCancelled` (the stop event was observed while
recording), any other exception (the audio layer raises `RuntimeError`),
or a captured clip at `path` (the peak level is never read by the
controller). -/
inductive CaptureOutcome where
  | cancelled
  | failed (msg : String)
  | ok (path : String)

/-- The external collaborators' behaviour for one run. -/
structure Oracle where
  capture : CaptureOutcome
  transcription : Except String String
  intentParse : Option (String → Except String SearchIntent)
  fieldsSearch : Option String → Option String → Option String → Except String (List Item)
  keywordSearch : String → Option String → Except String (List Item)
  retryHandler : Option (Bool → String)

/-- The configuration fields the controller reads. -/
structure Settings where
  activation_keywords : List String
  audio_default_duration : Nat
  openai_text_model : String
  zoteroTarget : String

/-- The controller state shared across calls: `_listening`, the
`_stop_event` flag, and `_latest_results`. -/
structure ControllerState where
  listening : Bool
  stopEventSet : Bool
  latestResults : List Item
deriving DecidableEq, Repr

/-- `AssistantController._prompt_retry`: ask the registered handler, or
default to `"expand"` when allowed, else `"retry"`. -/
def promptRetry (handler : Option (Bool → String)) (expandAllowed : Bool) : String :=
  match handler with
  | none => if expandAllowed then "expand" else "retry"
  | some h => h expandAllowed

/-- `AssistantController._summarize_intent`. -/
def summarize_intent (intent : SearchIntent) : String :=
  let pairs :=
    (if optTruthy intent.author then [("author", intent.author.getD "")] else []) ++
    (if optTruthy intent.title then [("title", intent.title.getD "")] else []) ++
    (if optTruthy intent.year then [("year", intent.year.getD "")] else [])
  let labels := pairs.map Prod.fst
  let values := pairs.map Prod.snd
  if labels = [] then "Keyword search terms detected: " ++ intent.search_terms
  else
    let fieldText :=
      match labels with
      | [l] => l
      | [l1, l2] => l1 ++ " and " ++ l2
      | _ => String.intercalate ", " labels.dropLast ++ ", and " ++ (labels.getLast?.getD "")
    let suffix := if labels.length = 1 then "field" else "fields"
    "Inputs for " ++ fieldText ++ " " ++ suffix ++ " detected: " ++
      String.intercalate ", " values ++ "."

/-- The dispatch decision of `AssistantController._run_search`: fielded
search when an intent with structured filters exists and this is not an
expand attempt, else keyword search with
`(intent.search_terms if intent else fallback_query) or fallback_query`
and `qmode = "everything"` exactly in expand mode. -/
def searchDispatch (intent : Option SearchIntent) (fallbackQuery : String)
    (expand : Bool) : SearchCall :=
  match intent with
  | some i =>
    if i.has_structured_filters && !expand then .byFields i.author i.title i.year
    else
      let searchTerms := if i.search_terms ≠ "" then i.search_terms else fallbackQuery
      .byKeyword searchTerms (if expand then some "everything" else none)
  | none => .byKeyword fallbackQuery (if expand then some "everything" else none)

/-- Deliver a Search Port call to the environment. -/
def execSearchCall (o : Oracle) : SearchCall → Except String (List Item)
  | .byFields a t y => o.fieldsSearch a t y
  | .byKeyword q m => o.keywordSearch q m

/-- The log line `_run_search` writes before issuing a call. -/
def searchCallLog (expand : Bool) : SearchCall → Event
  | .byFields _ _ _ => .log "Running Zotero fielded search with detected filters"
  | .byKeyword terms _ =>
    let scope := if expand then "expanded" else "direct"
    .log ("Keyword search (" ++ scope ++ "): " ++ terms)

/-- Result of one `_run_search` call: the matches, the events it
emitted, and the Search Port calls it made. -/
structure SearchStepOut where
  items : List Item
  events : List Event
  calls : List SearchCall
deriving Repr

/-- `AssistantController._run_search`: issue the dispatched call; any
exception from the Search Port is caught, logged, and turned into an
empty result list. -/
def run_search (o : Oracle) (intent : Option SearchIntent) (fallbackQuery : String)
    (expand : Bool) : SearchStepOut :=
  let call := searchDispatch intent fallbackQuery expand
  match execSearchCall o call with
  | .ok items => ⟨items, [searchCallLog expand call], [call]⟩
  | .error e => ⟨[], [searchCallLog expand call, .log ("Zotero search failed: " ++ e)], [call]⟩

/-- Result of `_handle_transcript` (and of the whole pipeline body):
events, the `expand_allowed` flags of the retry prompts issued, the
Search Port calls made, and the result list pushed (if any). -/
structure HandleOut where
  events : List Event
  prompts : List Bool
  calls : List SearchCall
  pushed : Option (List Item)
deriving Repr

/-- The events of a `_push_results` + found-count log pair. -/
def pushEvents (found : List Item) : List Event :=
  [.results found, .log (toString found.length ++ " item(s) found. Select from display.")]

/-- The search / retry-expand loop of `_handle_transcript`, unrolled:
the `while not matches` loop can prompt at most twice, because the
expand branch is guarded by `not expanded` and every other choice
returns.  On the second prompt, a `"retry"` choice logs the retry
message; any other choice (including a late `"expand"`) logs the cancel
message. -/
def searchAndRetry (o : Oracle) (intent : Option SearchIntent) (query : String) :
    HandleOut :=
  let step1 := run_search o intent query false
  let ev0 := [Event.log "Searching Zotero..."] ++ step1.events
  if step1.items = [] then
    let ev1 := ev0 ++ [Event.log "No Zotero items matched"]
    let choice1 := promptRetry o.retryHandler true
    if choice1 = "expand" then
      let step2 := run_search o intent query true
      let ev2 := ev1 ++ [Event.log "Expanding search across all fields..."] ++ step2.events
      if step2.items = [] then
        let ev3 := ev2 ++ [Event.log "No Zotero items matched"]
        let choice2 := promptRetry o.retryHandler false
        if choice2 = "retry" then
          ⟨ev3 ++ [Event.log "User chose to record another clip"], [true, false],
            step1.calls ++ step2.calls, none⟩
        else
          ⟨ev3 ++ [Event.log "User cancelled the search"], [true, false],
            step1.calls ++ step2.calls, none⟩
      else
        ⟨ev2 ++ pushEvents step2.items, [true], step1.calls ++ step2.calls,
          some step2.items⟩
    else if choice1 = "retry" then
      ⟨ev1 ++ [Event.log "User chose to record another clip"], [true], step1.calls, none⟩
    else
      ⟨ev1 ++ [Event.log "User cancelled the search"], [true], step1.calls, none⟩
  else
    ⟨ev0 ++ pushEvents step1.items, [], step1.calls, some step1.items⟩

/-- The intent-parsing stage of `_handle_transcript`: with a configured
parser, log the parsing line, then either the intent summary or the
failure line (failure is non-fatal and leaves the intent `None`). -/
def intentStage (s : Settings) (o : Oracle) (query : String) :
    Option SearchIntent × List Event :=
  match o.intentParse with
  | none => (none, [])
  | some parse =>
    let pre := Event.log ("Parsing input with " ++ s.openai_text_model ++ "...")
    match parse query with
    | .ok i => (some i, [pre, Event.log (summarize_intent i)])
    | .error e => (none, [pre, Event.log ("Intent parsing failed: " ++ e)])

/-- `AssistantController._handle_transcript`. -/
def handle_transcript (s : Settings) (o : Oracle) (transcript : String) : HandleOut :=
  match extractQuery s.activation_keywords transcript with
  | none =>
    ⟨[Event.log "Nothing transcribed; press 'Record Clip' to try again"], [], [], none⟩
  | some query =>
    let ip := intentStage s o query
    let res := searchAndRetry o ip.1 query
    ⟨ip.2 ++ res.events, res.prompts, res.calls, res.pushed⟩

/-- The try/except body of `_run_pipeline` before the `finally` block:
events, prompts, calls, pushed results, and the clip path if capture
created one. -/
structure BodyOut where
  events : List Event
  prompts : List Bool
  calls : List SearchCall
  pushed : Option (List Item)
  snippet : Option String
deriving Repr

/-- `_run_pipeline` up to but excluding the `finally` block, covering the
`RecordingCancelled` handler ("Recording cancelled") and the generic
exception handler ("Pipeline error: ...", which receives the audio
layer's `RuntimeError` and the transcription failures). -/
def pipelineBody (s : Settings) (o : Oracle) : BodyOut :=
  let ev0 : List Event :=
    [.recording true,
     .log ("Recording audio snippet for up to " ++
       toString s.audio_default_duration ++ " seconds...")]
  match o.capture with
  | .cancelled => ⟨ev0 ++ [.log "Recording cancelled"], [], [], none, none⟩
  | .failed msg => ⟨ev0 ++ [.log ("Pipeline error: " ++ msg)], [], [], none, none⟩
  | .ok path =>
    let ev1 := ev0 ++ [.recording false, .log "Transcribing audio with OpenAI..."]
    match o.transcription with
    | .error e => ⟨ev1 ++ [.log ("Pipeline error: " ++ e)], [], [], none, some path⟩
    | .ok transcript =>
      let pretty := if pyStripStr transcript = "" then "[empty]" else pyStripStr transcript
      let h := handle_transcript s o transcript
      ⟨ev1 ++ [.log ("Raw audio transcription: " ++ pretty), .transcript transcript] ++
          h.events,
        h.prompts, h.calls, h.pushed, some path⟩

/-- The events of `_cleanup_after_run`. -/
def cleanupEvents : List Event :=
  [.recording false, .status false, .log "Assistant stopped"]

/-- `snippet.unlink(missing_ok=True)` under
`suppress(FileNotFoundError, PermissionError)`: afterwards the file is
gone (a missing file is no error, and deletion is assumed not to be
blocked by the OS). -/
def unlinkBestEffort (_clipOnDisk : Bool) : Bool := false

/-- Everything `_run_pipeline` produced: the event trace, prompts,
Search Port calls, this run's clip path and whether its file still
exists, and the final controller state. -/
structure RunOutput where
  events : List Event
  prompts : List Bool
  calls : List SearchCall
  snippet : Option String
  clipExists : Bool
  state : ControllerState
deriving Repr

/-- `AssistantController._run_pipeline`: the body followed
unconditionally by the `finally` block (best-effort clip deletion when a
clip was captured, then `_cleanup_after_run`: `RecordingChanged(false)`,
set the stop event, clear `_listening`, `StatusChanged(false)`, log
"Assistant stopped"). -/
def run_pipeline (s : Settings) (o : Oracle) (st : ControllerState) : RunOutput :=
  let b := pipelineBody s o
  { events := b.events ++ cleanupEvents
    prompts := b.prompts
    calls := b.calls
    snippet := b.snippet
    clipExists :=
      match b.snippet with
      | some _ => unlinkBestEffort true
      | none => false
    state :=
      { listening := false
        stopEventSet := true
        latestResults := b.pushed.getD st.latestResults } }

/-- Result of `AssistantController.start`: its emissions (followed, in
this serialised model, by the background run's), and whether a
background run was spawned — the code spawns exactly one worker thread
when it spawns any. -/
structure StartOutput where
  events : List Event
  prompts : List Bool
  calls : List SearchCall
  ranPipeline : Bool
  state : ControllerState
deriving Repr

/-- `AssistantController.start`: a no-op while `_listening`; otherwise
reset the stop event, set `_listening`, emit `StatusChanged(true)`,
spawn the single worker, log the activation and target lines, and push
the initial empty result list (which sets `_latest_results` to `[]`). -/
def start (s : Settings) (o : Oracle) (st : ControllerState) : StartOutput :=
  if st.listening then ⟨[], [], [], false, st⟩
  else
    let startEvents : List Event :=
      [.status true,
       .log ("Assistant activated (recording up to " ++
         toString s.audio_default_duration ++ " seconds)"),
       .log ("Zotero target: " ++ s.zoteroTarget),
       .results []]
    let st1 : ControllerState :=
      { listening := true, stopEventSet := false, latestResults := [] }
    let run := run_pipeline s o st1
    ⟨startEvents ++ run.events, run.prompts, run.calls, true, run.state⟩

/-! ## Concrete fixtures for witnesses and counterexamples -/

/-- A concrete settings record (the configuration defaults). -/
def demoSettings : Settings :=
  ⟨defaultActivationKeywords, 5, "gpt-4o-mini", "Zotero web API (library 7 / user)"⟩

/-- A concrete library item by John Smith, dated 2019. -/
def demoItem : Item :=
  ⟨"KEY1", ⟨"Climate shifts", [⟨"John", "Smith"⟩], "2019-05-01", none, none, none⟩,
    ⟨none, none⟩⟩

/-- An environment whose capture step observes the stop event. -/
def cancelOracle : Oracle :=
  ⟨.cancelled, .ok "", none, fun _ _ _ => .ok [], fun _ _ => .ok [], none⟩

/-- An environment with a successful capture and transcription whose
searches all come back empty; no intent parser, no retry handler. -/
def emptySearchOracle : Oracle :=
  ⟨.ok "/tmp/zva_demo.wav", .ok "citation assistant papers by smith", none,
    fun _ _ _ => .ok [], fun _ _ => .ok [], none⟩

/-- Like `emptySearchOracle` but the keyword search finds `demoItem`. -/
def foundOracle : Oracle :=
  { emptySearchOracle with keywordSearch := fun _ _ => .ok [demoItem] }

/-- Like `emptySearchOracle` but the keyword search raises, and the host
answers every retry prompt with "cancel". -/
def errorSearchOracle : Oracle :=
  { emptySearchOracle with
      keywordSearch := fun _ _ => .error "boom"
      retryHandler := some (fun _ => "cancel") }

/-- An idle controller. -/
def idleState : ControllerState := ⟨false, false, []⟩

/-- A controller with a run in flight. -/
def busyState : ControllerState := ⟨true, false, []⟩

/-- A parsed intent carrying only an author filter. -/
def zimmermanIntent : SearchIntent :=
  ⟨"papers by Zimmerman", "papers by Zimmerman", some "Zimmerman", none, none, 0⟩

/-- The claim's literal trimming for `_extract_query`'s remainder:
surrounding whitespace, then trailing (only) punctuation `,.:`. -/
def claimTrim (l : List Char) : List Char :=
  ((pyStrip l).reverse.dropWhile (fun c => queryPunct.contains c)).reverse

/-- The code's trimming of the post-keyword remainder, with the
empty-remainder fallback to the stripped transcript
(`stripped[idx:].strip().strip(",.:") or stripped`). -/
def remainderOrFallback (stripped : List Char) (idx : Nat) : List Char :=
  let remainder := pyStripSet queryPunct (pyStrip (stripped.drop idx))
  if remainder = [] then stripped else remainder

/-! ## Helper lemmas -/

theorem scanKeywords_nil (stripped lowered : List Char) :
    scanKeywords stripped lowered [] = stripped := rfl

theorem scanKeywords_cons_found (stripped lowered k : List Char)
    (ks : List (List Char)) (i : Nat) (hk : k ≠ []) (hf : findSub k lowered = some i) :
    scanKeywords stripped lowered (k :: ks) = remainderOrFallback stripped (i + k.length) := by
  unfold scanKeywords
  rw [if_neg hk, hf]
  rfl

theorem scanKeywords_cons_notfound (stripped lowered k : List Char)
    (ks : List (List Char)) (hf : findSub k lowered = none) :
    scanKeywords stripped lowered (k :: ks) = scanKeywords stripped lowered ks := by
  by_cases hk : k = []
  · subst hk
    rfl
  · conv_lhs => unfold scanKeywords
    rw [if_neg hk, hf]

theorem optTruthy_eq_some (o : Option String) (h : optTruthy o = true) :
    o = some (o.getD "") := by
  cases o with
  | none => simp [optTruthy] at h
  | some s => rfl

theorem searchCallLog_is_log (expand : Bool) (c : SearchCall) :
    ∃ m, searchCallLog expand c = Event.log m := by
  cases c <;> exact ⟨_, rfl⟩

theorem run_search_calls_eq (o : Oracle) (intent : Option SearchIntent) (q : String)
    (expand : Bool) :
    (run_search o intent q expand).calls = [searchDispatch intent q expand] := by
  unfold run_search
  dsimp only
  split <;> rfl

theorem run_search_events_log (o : Oracle) (intent : Option SearchIntent) (q : String)
    (expand : Bool) (e : Event) (he : e ∈ (run_search o intent q expand).events) :
    ∃ m, e = Event.log m := by
  obtain ⟨m, hm⟩ := searchCallLog_is_log expand (searchDispatch intent q expand)
  unfold run_search at he
  dsimp only at he
  split at he <;> simp at he
  · exact ⟨m, by rw [he, hm]⟩
  · rcases he with he | he
    · exact ⟨m, by rw [he, hm]⟩
    · exact ⟨_, he⟩

/-! ## C1 -/

/-- C1 counterexample: the claim's trimming ("surrounding whitespace and
trailing punctuation") does not describe `_extract_query`.  (a) For
`"citation assistant papers by Zimmerman on climate ."` the code returns
`"papers by Zimmerman on climate "` — a value that still carries
surrounding whitespace, so it is not the claimed trim of the remainder.
(b) For `"citation assistant ,papers"` the claimed value is `",papers"`
(`claimTrim` is already a fixpoint there), but the code also strips the
leading comma and returns `"papers"`. -/
theorem c1_extract_query_counterexample :
    extractQuery defaultActivationKeywords
        "citation assistant papers by Zimmerman on climate ." =
      some "papers by Zimmerman on climate " ∧
    pyStrip ("papers by Zimmerman on climate " : String).data ≠
      ("papers by Zimmerman on climate " : String).data ∧
    extractQuery defaultActivationKeywords "citation assistant ,papers" =
      some "papers" ∧
    claimTrim (" ,papers" : String).data = (",papers" : String).data ∧
    claimTrim (",papers" : String).data = (",papers" : String).data ∧
    ("papers" : String) ≠ ",papers" :=
  ⟨by decide, by decide, by decide, by decide, by decide, by decide⟩

/-- C1 amended: with the configured activation keywords (the defaults
`"citation assistant"` and `"find paper"`, both lowercase, matched
against the lowercased stripped transcript), `_extract_query` returns:
`None` for a whitespace-only transcript; the full stripped transcript
when no keyword occurs; and otherwise the remainder after the first
occurrence of the first listed matching keyword, trimmed of surrounding
whitespace and then of the punctuation characters `,.:` on *both* ends
(whitespace uncovered by removing punctuation is kept), falling back to
the full stripped transcript when that remainder is empty. -/
theorem c1_extract_query_amended (transcript : String) :
    (pyStrip transcript.data = [] →
      extractQuery defaultActivationKeywords transcript = none) ∧
    (pyStrip transcript.data ≠ [] →
      findSub ("citation assistant" : String).data (pyLower (pyStrip transcript.data)) = none →
      findSub ("find paper" : String).data (pyLower (pyStrip transcript.data)) = none →
      extractQuery defaultActivationKeywords transcript =
        some (String.mk (pyStrip transcript.data))) ∧
    (∀ i, pyStrip transcript.data ≠ [] →
      findSub ("citation assistant" : String).data (pyLower (pyStrip transcript.data)) = some i →
      extractQuery defaultActivationKeywords transcript =
        some (String.mk (remainderOrFallback (pyStrip transcript.data)
          (i + ("citation assistant" : String).data.length)))) ∧
    (∀ i, pyStrip transcript.data ≠ [] →
      findSub ("citation assistant" : String).data (pyLower (pyStrip transcript.data)) = none →
      findSub ("find paper" : String).data (pyLower (pyStrip transcript.data)) = some i →
      extractQuery defaultActivationKeywords transcript =
        some (String.mk (remainderOrFallback (pyStrip transcript.data)
          (i + ("find paper" : String).data.length)))) := by
  refine ⟨fun hs => ?_, fun hs h1 h2 => ?_, fun i hs h1 => ?_, fun i hs h1 h2 => ?_⟩
  · simp [extractQuery, hs]
  · unfold extractQuery
    dsimp only
    rw [if_neg hs]
    simp only [defaultActivationKeywords, List.map_cons, List.map_nil]
    rw [scanKeywords_cons_notfound _ _ _ _ h1, scanKeywords_cons_notfound _ _ _ _ h2,
      scanKeywords_nil]
  · unfold extractQuery
    dsimp only
    rw [if_neg hs]
    simp only [defaultActivationKeywords, List.map_cons, List.map_nil]
    rw [scanKeywords_cons_found _ _ _ _ i (by decide) h1]
  · unfold extractQuery
    dsimp only
    rw [if_neg hs]
    simp only [defaultActivationKeywords, List.map_cons, List.map_nil]
    rw [scanKeywords_cons_notfound _ _ _ _ h1,
      scanKeywords_cons_found _ _ _ _ i (by decide) h2]

/-- C1 witness: the spec's worked example, via the amended theorem —
keyword `"citation assistant"` found at index 0 yields
`"papers by Zimmerman on climate"`. -/
theorem c1_extract_query_amended_witness :
    extractQuery defaultActivationKeywords
        "citation assistant papers by Zimmerman on climate" =
      some "papers by Zimmerman on climate" := by
  have h := (c1_extract_query_amended
    "citation assistant papers by Zimmerman on climate").2.2.1 0 (by decide) (by decide)
  rw [h]
  decide

/-! ## C8 -/

/-- C8: when no retry-choice collaborator is registered, `_prompt_retry`
returns the default choice without blocking: `"expand"` when the expand
offer is allowed, else `"retry"`. -/
theorem c8_prompt_default (expandAllowed : Bool) :
    promptRetry none expandAllowed = (if expandAllowed then "expand" else "retry") ∧
    promptRetry none true = "expand" ∧ promptRetry none false = "retry" :=
  ⟨rfl, rfl, rfl⟩

/-! ## C5 -/

/-- C5: `_run_search` issues exactly the dispatched Search Port call: the
fielded search with precisely the intent's filters when an intent with at
least one structured filter exists and this is not an expand attempt;
otherwise the keyword search with the intent's search terms when present
and non-empty (else the fallback query), with the expand query mode flag
set exactly in expand mode. -/
theorem c5_search_policy (o : Oracle) (intent : Option SearchIntent) (q : String)
    (expand : Bool) :
    (run_search o intent q expand).calls = [searchDispatch intent q expand] ∧
    (∀ i, intent = some i → i.has_structured_filters = true → expand = false →
      searchDispatch intent q expand = .byFields i.author i.title i.year) ∧
    (∀ i, intent = some i → (i.has_structured_filters = false ∨ expand = true) →
      searchDispatch intent q expand =
        .byKeyword (if i.search_terms = "" then q else i.search_terms)
          (if expand then some "everything" else none)) ∧
    (intent = none →
      searchDispatch intent q expand =
        .byKeyword q (if expand then some "everything" else none)) := by
  refine ⟨run_search_calls_eq o intent q expand, ?_, ?_, ?_⟩
  · rintro i rfl hf rfl
    simp [searchDispatch, hf]
  · rintro i rfl h
    have hcond : (i.has_structured_filters && !expand) = false := by
      rcases h with h | h <;> simp [h]
    simp only [searchDispatch, hcond]
    by_cases ht : i.search_terms = "" <;> simp [ht]
  · rintro rfl
    rfl

/-- C5 witness: an intent with only `author="Zimmerman"` dispatches a
fielded search carrying exactly the author filter. -/
theorem c5_search_policy_witness :
    zimmermanIntent.has_structured_filters = true ∧
    searchDispatch (some zimmermanIntent) "papers by Zimmerman" false =
      .byFields (some "Zimmerman") none none := by
  refine ⟨by decide, ?_⟩
  exact (c5_search_policy emptySearchOracle (some zimmermanIntent)
    "papers by Zimmerman" false).2.1 zimmermanIntent rfl (by decide) rfl

/-! ## C6 -/

theorem searchAndRetry_prompts_head_of_empty (o : Oracle)
    (intent : Option SearchIntent) (q : String)
    (h : (run_search o intent q false).items = []) :
    (searchAndRetry o intent q).prompts.head? = some true := by
  unfold searchAndRetry
  dsimp only
  rw [if_pos h]
  split_ifs <;> rfl

/-- C6: every exception raised by the Search Port during a search step is
caught and logged by `_run_search` and turned into an empty result list;
an empty first search then triggers the retry prompt. -/
theorem c6_search_error_caught (o : Oracle) (intent : Option SearchIntent)
    (q : String) (e : String) :
    (∀ expand, execSearchCall o (searchDispatch intent q expand) = .error e →
      (run_search o intent q expand).items = [] ∧
      Event.log ("Zotero search failed: " ++ e) ∈
        (run_search o intent q expand).events) ∧
    (execSearchCall o (searchDispatch intent q false) = .error e →
      (searchAndRetry o intent q).prompts.head? = some true) := by
  constructor
  · intro expand hc
    unfold run_search
    dsimp only
    rw [hc]
    exact ⟨rfl, by simp⟩
  · intro hc
    apply searchAndRetry_prompts_head_of_empty
    unfold run_search
    dsimp only
    rw [hc]

/-- C6 witness: a keyword-search backend that raises `"boom"` yields an
empty result, the failure log, and a first retry prompt. -/
theorem c6_search_error_caught_witness :
    (run_search errorSearchOracle none "papers" false).items = [] ∧
    Event.log ("Zotero search failed: " ++ "boom") ∈
      (run_search errorSearchOracle none "papers" false).events ∧
    (searchAndRetry errorSearchOracle none "papers").prompts.head? = some true := by
  obtain ⟨h1, h2⟩ := c6_search_error_caught errorSearchOracle none "papers" "boom"
  obtain ⟨ha, hb⟩ := h1 false rfl
  exact ⟨ha, hb, h2 rfl⟩

/-! ## C9 -/

theorem firstPdfLocation_eq_head (atts : List Item) :
    firstPdfLocation atts = (atts.filterMap pdfLocationOf).head? := by
  induction atts with
  | nil => rfl
  | cons a rest ih =>
    unfold firstPdfLocation
    rw [List.filterMap_cons]
    by_cases hct : a.data.contentType = some "application/pdf"
    · rw [if_neg (not_not_intro hct)]
      by_cases hp : optTruthy a.data.path = true
      · rw [if_pos hp]
        rcases hpath : a.data.path with _ | v
        · simp [optTruthy, hpath] at hp
        · rw [hpath] at hp
          simp [pdfLocationOf, hct, hpath, optTruthy] at hp ⊢
          simp [hp]
      · rw [if_neg hp]
        by_cases he : optTruthy a.links.enclosure = true
        · rw [if_pos he]
          rcases hencl : a.links.enclosure with _ | v
          · simp [optTruthy, hencl] at he
          · rw [hencl] at he
            have hp2 : a.data.path.getD "" = "" := by
              simpa [optTruthy] using hp
            simp [pdfLocationOf, hct, hencl, optTruthy] at he ⊢
            simp [hp2, he]
        · rw [if_neg he]
          simp [pdfLocationOf, hct, hp, he, ih]
    · rw [if_pos hct]
      simp [pdfLocationOf, hct, ih]

/-- C9: item location resolution returns the first available of, in
order, a PDF attachment's location (local path, else enclosure file
URL), the item's generic URL, and the item's alternate link; it is
`none` exactly when all of these are absent. -/
theorem c9_resolve_location (attachments : List Item) (item : Item) :
    get_attachment_or_url attachments item =
      (specLocationCandidates attachments item).head? ∧
    (get_attachment_or_url attachments item = none ↔
      specLocationCandidates attachments item = []) := by
  have hmain : get_attachment_or_url attachments item =
      (specLocationCandidates attachments item).head? := by
    unfold get_attachment_or_url specLocationCandidates
    rw [firstPdfLocation_eq_head]
    rcases hA : attachments.filterMap pdfLocationOf with _ | ⟨x, xs⟩
    · simp only [List.head?_nil, List.nil_append]
      by_cases hu : optTruthy item.data.url = true
      · rw [if_pos hu]
        simp [hu, ← optTruthy_eq_some _ hu]
      · rw [if_neg hu]
        by_cases ha : optTruthy item.links.alternate = true
        · simp [hu, ha, ← optTruthy_eq_some _ ha]
        · simp [hu, ha]
    · simp
  refine ⟨hmain, ?_⟩
  rw [hmain, List.head?_eq_none_iff]

/-! ## C10 -/

theorem filterLoop_length_le (ratioAtLeast : List Char → List Char → Bool)
    (author title year : Option String) (limit : Int) :
    ∀ (l : List Item) (acc : Nat),
      ((filterLoop ratioAtLeast author title year limit acc l).length : Int) ≤
        max (limit - acc) 1 := by
  intro l
  induction l with
  | nil =>
    intro acc
    simp only [filterLoop, List.length_nil, Int.ofNat_zero]
    omega
  | cons x rest ih =>
    intro acc
    unfold filterLoop
    by_cases hp : itemPassesFilters ratioAtLeast author title year x = true
    · rw [if_pos hp]
      by_cases hl : ((acc : Int) + 1) ≥ limit
      · rw [if_pos hl]
        simp only [List.length_singleton]
        omega
      · rw [if_neg hl]
        have h2 := ih (acc + 1)
        simp only [List.length_cons] at h2 ⊢
        push_cast at h2 ⊢
        omega
    · rw [if_neg hp]
      have h2 := ih acc
      omega

theorem filterLoop_mem (ratioAtLeast : List Char → List Char → Bool)
    (author title year : Option String) (limit : Int) :
    ∀ (l : List Item) (acc : Nat) (item : Item),
      item ∈ filterLoop ratioAtLeast author title year limit acc l →
      itemPassesFilters ratioAtLeast author title year item = true ∧ item ∈ l := by
  intro l
  induction l with
  | nil =>
    intro acc item h
    simp [filterLoop] at h
  | cons x rest ih =>
    intro acc item h
    unfold filterLoop at h
    by_cases hp : itemPassesFilters ratioAtLeast author title year x = true
    · rw [if_pos hp] at h
      by_cases hl : ((acc : Int) + 1) ≥ limit
      · rw [if_pos hl] at h
        simp only [List.mem_singleton] at h
        subst h
        exact ⟨hp, List.mem_cons_self _ _⟩
      · rw [if_neg hl] at h
        rcases List.mem_cons.mp h with rfl | h
        · exact ⟨hp, List.mem_cons_self _ _⟩
        · obtain ⟨h1, h2⟩ := ih (acc + 1) item h
          exact ⟨h1, List.mem_cons_of_mem x h2⟩
    · rw [if_neg hp] at h
      obtain ⟨h1, h2⟩ := ih acc item h
      exact ⟨h1, List.mem_cons_of_mem x h2⟩

/-- C10 counterexample: (a) with `limit = 0` the fielded search returns
one item, not at most zero; (b) with the unstripped year filter
`"2019 "` the fielded search returns an item whose first four-digit date
sequence `"2019"` is not equal to the filter, so "the year filter equals
exactly the first four-digit sequence" fails as stated. -/
theorem c10_search_by_fields_counterexample :
    search_by_fields (fun _ _ => false) (fun _ _ => [demoItem])
      (some "smith") none none 0 = .ok [demoItem] ∧
    ¬((([demoItem].length : Int)) ≤ 0) ∧
    search_by_fields (fun _ _ => false) (fun _ _ => [demoItem])
      none none (some "2019 ") 5 = .ok [demoItem] ∧
    findFourDigits demoItem.data.date.data = some "2019".data ∧
    ("2019 " : String) ≠ "2019" :=
  ⟨rfl, by decide, rfl, by decide, by decide⟩

/-- C10 amended: for every backend behaviour and every call with at least
one truthy filter, the fielded search succeeds with at most
`max limit 1` items (at most `limit` whenever `limit ≥ 1`; a single item
can be returned when `limit ≤ 0`), and every returned item passes each
provided filter — the author/title filters via the code's fuzzy match
(case-insensitive trimmed substring, or the abstracted similarity-ratio
verdict) and the year filter via equality of the trimmed filter with the
first four-digit sequence of the item's date. -/
theorem c10_search_by_fields_amended (ratioAtLeast : List Char → List Char → Bool)
    (libraryItems : String → Int → List Item)
    (author title year : Option String) (limit : Int)
    (h : (optTruthy author || optTruthy title || optTruthy year) = true) :
    ∃ l, search_by_fields ratioAtLeast libraryItems author title year limit = .ok l ∧
      (l.length : Int) ≤ max limit 1 ∧
      ((1 : Int) ≤ limit → (l.length : Int) ≤ limit) ∧
      ∀ item ∈ l, itemPassesFilters ratioAtLeast author title year item = true := by
  obtain ⟨cands, hres⟩ : ∃ cands,
      search_by_fields ratioAtLeast libraryItems author title year limit =
        .ok (filterLoop ratioAtLeast author title year limit 0 cands) := by
    refine ⟨libraryItems (String.mk (List.intercalate [' ']
        (([author, title, year].filterMap id).filterMap
          (fun t => if t ≠ "" then some t.data else none)))) (max (limit * 3) 20), ?_⟩
    unfold search_by_fields
    rw [h]
    rfl
  refine ⟨_, hres, ?_, ?_, ?_⟩
  · have hlen := filterLoop_length_le ratioAtLeast author title year limit cands 0
    omega
  · intro hl
    have hlen := filterLoop_length_le ratioAtLeast author title year limit cands 0
    omega
  · intro item hi
    exact (filterLoop_mem ratioAtLeast author title year limit cands 0 item hi).1

/-- C10 amended witness: two candidates by Smith with `limit = 1` yield
exactly one returned item, which passes the author filter. -/
theorem c10_search_by_fields_amended_witness :
    ∃ l, search_by_fields (fun _ _ => false) (fun _ _ => [demoItem, demoItem])
        (some "smith") none none 1 = .ok l ∧
      (l.length : Int) ≤ max 1 1 ∧
      ((1 : Int) ≤ 1 → (l.length : Int) ≤ 1) ∧
      ∀ item ∈ l, itemPassesFilters (fun _ _ => false) (some "smith") none none item = true :=
  c10_search_by_fields_amended (fun _ _ => false) (fun _ _ => [demoItem, demoItem])
    (some "smith") none none 1 (by decide)


/-! ## Pipeline trace lemmas (C2, C3, C4, C7) -/

theorem searchAndRetry_prompts_shape (o : Oracle) (intent : Option SearchIntent) (q : String) :
    (searchAndRetry o intent q).prompts = [] ∨
    (searchAndRetry o intent q).prompts = [true] ∨
    (searchAndRetry o intent q).prompts = [true, false] := by
  unfold searchAndRetry
  dsimp only
  split_ifs <;> simp

theorem searchAndRetry_pushed_ne_nil (o : Oracle) (intent : Option SearchIntent)
    (q : String) (r : List Item) (h : (searchAndRetry o intent q).pushed = some r) :
    r ≠ [] := by
  unfold searchAndRetry at h
  dsimp only at h
  split_ifs at h with h1 h2 h3 h4 h5 <;> dsimp only at h
  all_goals injection h with h6
  all_goals (subst h6; assumption)

theorem searchAndRetry_events_shape (o : Oracle) (intent : Option SearchIntent)
    (q : String) (e : Event) (he : e ∈ (searchAndRetry o intent q).events) :
    (∃ m, e = Event.log m) ∨
    (∃ r, e = Event.results r ∧ (searchAndRetry o intent q).pushed = some r) := by
  unfold searchAndRetry at he ⊢
  dsimp only at he ⊢
  split_ifs at he ⊢ with h1 h2 h3 h4 h5 <;>
    simp only [pushEvents, List.mem_append, List.mem_cons, List.mem_singleton,
      List.not_mem_nil, or_false, false_or, or_assoc] at he <;>
    (repeat' first
      | (exact Or.inl ⟨_, rfl⟩)
      | (exact Or.inr ⟨_, rfl, rfl⟩)
      | (exact Or.inl (run_search_events_log o intent q false _ he))
      | (exact Or.inl (run_search_events_log o intent q true _ he))
      | (rcases he with he | he))

theorem searchAndRetry_prompts_ne_nil_iff (o : Oracle) (intent : Option SearchIntent)
    (q : String) :
    (searchAndRetry o intent q).prompts ≠ [] ↔ (run_search o intent q false).items = [] := by
  unfold searchAndRetry
  dsimp only
  split_ifs with h1 h2 h3 h4 h5 <;> simp [h1]

theorem searchAndRetry_calls_cases (o : Oracle) (intent : Option SearchIntent) (q : String) :
    (searchAndRetry o intent q).calls = [searchDispatch intent q false] ∨
    (searchAndRetry o intent q).calls =
      [searchDispatch intent q false, searchDispatch intent q true] := by
  unfold searchAndRetry
  dsimp only
  split_ifs <;> simp [run_search_calls_eq]

theorem searchAndRetry_expand_calls (o : Oracle) (intent : Option SearchIntent) (q : String)
    (h1 : (run_search o intent q false).items = [])
    (h2 : promptRetry o.retryHandler true = "expand") :
    (searchAndRetry o intent q).calls =
      [searchDispatch intent q false, searchDispatch intent q true] := by
  unfold searchAndRetry
  dsimp only
  rw [if_pos h1, if_pos h2]
  split_ifs <;> simp [run_search_calls_eq]

theorem searchAndRetry_no_expand (o : Oracle) (intent : Option SearchIntent) (q : String)
    (h1 : (run_search o intent q false).items = [])
    (h2 : promptRetry o.retryHandler true ≠ "expand") :
    (searchAndRetry o intent q).pushed = none ∧
    (searchAndRetry o intent q).calls = [searchDispatch intent q false] := by
  unfold searchAndRetry
  dsimp only
  rw [if_pos h1, if_neg h2]
  split_ifs <;> simp [run_search_calls_eq]

theorem searchDispatch_isExpand_false (intent : Option SearchIntent) (q : String) :
    (searchDispatch intent q false).isExpand = false := by
  unfold searchDispatch
  cases intent with
  | none => rfl
  | some i =>
    by_cases hf : i.has_structured_filters = true <;>
      simp [hf, SearchCall.isExpand]

theorem searchDispatch_isExpand_true (intent : Option SearchIntent) (q : String) :
    (searchDispatch intent q true).isExpand = true := by
  unfold searchDispatch
  cases intent with
  | none => rfl
  | some i => simp [SearchCall.isExpand]

theorem searchAndRetry_countP_expand_le (o : Oracle) (intent : Option SearchIntent)
    (q : String) :
    (searchAndRetry o intent q).calls.countP SearchCall.isExpand ≤ 1 := by
  rcases searchAndRetry_calls_cases o intent q with h | h <;>
    simp [h, List.countP_cons, searchDispatch_isExpand_false, searchDispatch_isExpand_true]

theorem intentStage_events_log (s : Settings) (o : Oracle) (q : String) (e : Event)
    (he : e ∈ (intentStage s o q).2) : ∃ m, e = Event.log m := by
  unfold intentStage at he
  cases hp : o.intentParse with
  | none => rw [hp] at he; simp at he
  | some parse =>
    rw [hp] at he
    dsimp only at he
    cases hr : parse q <;> rw [hr] at he <;> dsimp only at he <;>
      simp only [List.mem_cons, List.not_mem_nil, or_false] at he <;>
      rcases he with he | he <;> exact ⟨_, he⟩

theorem handle_transcript_cases (s : Settings) (o : Oracle) (t : String) :
    (extractQuery s.activation_keywords t = none ∧
      handle_transcript s o t =
        ⟨[Event.log "Nothing transcribed; press 'Record Clip' to try again"],
          [], [], none⟩) ∨
    (∃ q, extractQuery s.activation_keywords t = some q ∧
      handle_transcript s o t =
        ⟨(intentStage s o q).2 ++ (searchAndRetry o (intentStage s o q).1 q).events,
         (searchAndRetry o (intentStage s o q).1 q).prompts,
         (searchAndRetry o (intentStage s o q).1 q).calls,
         (searchAndRetry o (intentStage s o q).1 q).pushed⟩) := by
  unfold handle_transcript
  cases hq : extractQuery s.activation_keywords t with
  | none => exact Or.inl ⟨rfl, rfl⟩
  | some q => exact Or.inr ⟨q, rfl, rfl⟩


theorem handle_transcript_events_shape (s : Settings) (o : Oracle) (t : String)
    (e : Event) (he : e ∈ (handle_transcript s o t).events) :
    (∃ m, e = Event.log m) ∨
    (∃ r, e = Event.results r ∧ (handle_transcript s o t).pushed = some r) := by
  rcases handle_transcript_cases s o t with ⟨hq, heq⟩ | ⟨q, hq, heq⟩
  · rw [heq] at he
    simp only [List.mem_cons, List.not_mem_nil, or_false] at he
    exact Or.inl ⟨_, he⟩
  · rw [heq] at he ⊢
    dsimp only at he ⊢
    rcases List.mem_append.mp he with h | h
    · exact Or.inl (intentStage_events_log s o q e h)
    · rcases searchAndRetry_events_shape o (intentStage s o q).1 q e h with h | ⟨r, hr, hp⟩
      · exact Or.inl h
      · exact Or.inr ⟨r, hr, hp⟩

theorem handle_transcript_pushed_ne_nil (s : Settings) (o : Oracle) (t : String)
    (r : List Item) (h : (handle_transcript s o t).pushed = some r) : r ≠ [] := by
  rcases handle_transcript_cases s o t with ⟨hq, heq⟩ | ⟨q, hq, heq⟩
  · rw [heq] at h
    exact absurd h (by simp)
  · rw [heq] at h
    exact searchAndRetry_pushed_ne_nil o (intentStage s o q).1 q r h

theorem handle_transcript_prompts_shape (s : Settings) (o : Oracle) (t : String) :
    (handle_transcript s o t).prompts = [] ∨
    (handle_transcript s o t).prompts = [true] ∨
    (handle_transcript s o t).prompts = [true, false] := by
  rcases handle_transcript_cases s o t with ⟨hq, heq⟩ | ⟨q, hq, heq⟩
  · rw [heq]
    exact Or.inl rfl
  · rw [heq]
    exact searchAndRetry_prompts_shape o (intentStage s o q).1 q

theorem pipelineBody_core (s : Settings) (o : Oracle) :
    ((pipelineBody s o).prompts = [] ∧ (pipelineBody s o).calls = [] ∧
      (pipelineBody s o).pushed = none) ∨
    (∃ t, o.transcription = .ok t ∧
      (pipelineBody s o).prompts = (handle_transcript s o t).prompts ∧
      (pipelineBody s o).calls = (handle_transcript s o t).calls ∧
      (pipelineBody s o).pushed = (handle_transcript s o t).pushed) := by
  unfold pipelineBody
  cases hc : o.capture with
  | cancelled => exact Or.inl ⟨rfl, rfl, rfl⟩
  | failed m => exact Or.inl ⟨rfl, rfl, rfl⟩
  | ok p =>
    dsimp only
    cases ht : o.transcription with
    | error e => exact Or.inl ⟨rfl, rfl, rfl⟩
    | ok t => exact Or.inr ⟨t, rfl, rfl, rfl, rfl⟩

theorem pipelineBody_events_cases (s : Settings) (o : Oracle) :
    (pipelineBody s o =
      ⟨[Event.recording true,
        Event.log ("Recording audio snippet for up to " ++
          toString s.audio_default_duration ++ " seconds..."),
        Event.log "Recording cancelled"], [], [], none, none⟩) ∨
    (∃ m, pipelineBody s o =
      ⟨[Event.recording true,
        Event.log ("Recording audio snippet for up to " ++
          toString s.audio_default_duration ++ " seconds..."),
        Event.log ("Pipeline error: " ++ m)], [], [], none, none⟩) ∨
    (∃ p m, pipelineBody s o =
      ⟨[Event.recording true,
        Event.log ("Recording audio snippet for up to " ++
          toString s.audio_default_duration ++ " seconds..."),
        Event.recording false, Event.log "Transcribing audio with OpenAI...",
        Event.log ("Pipeline error: " ++ m)], [], [], none, some p⟩) ∨
    (∃ p t, o.transcription = .ok t ∧ pipelineBody s o =
      ⟨[Event.recording true,
        Event.log ("Recording audio snippet for up to " ++
          toString s.audio_default_duration ++ " seconds..."),
        Event.recording false, Event.log "Transcribing audio with OpenAI...",
        Event.log ("Raw audio transcription: " ++
          (if pyStripStr t = "" then "[empty]" else pyStripStr t)),
        Event.transcript t] ++ (handle_transcript s o t).events,
       (handle_transcript s o t).prompts, (handle_transcript s o t).calls,
       (handle_transcript s o t).pushed, some p⟩) := by
  unfold pipelineBody
  cases hc : o.capture
  · exact Or.inl rfl
  · exact Or.inr (Or.inl ⟨_, rfl⟩)
  · cases ht : o.transcription
    · exact Or.inr (Or.inr (Or.inl ⟨_, _, rfl⟩))
    · exact Or.inr (Or.inr (Or.inr ⟨_, _, rfl, rfl⟩))

theorem pipelineBody_events_shape (s : Settings) (o : Oracle) (e : Event)
    (he : e ∈ (pipelineBody s o).events) :
    (∃ m, e = Event.log m) ∨ (∃ b, e = Event.recording b) ∨
    (∃ u, e = Event.transcript u) ∨
    (∃ r, e = Event.results r ∧ (pipelineBody s o).pushed = some r) := by
  rcases pipelineBody_events_cases s o with heq | ⟨m, heq⟩ | ⟨p, m, heq⟩ | ⟨p, t, htr, heq⟩ <;>
    rw [heq] at he ⊢ <;> dsimp only at he ⊢ <;>
    simp only [List.mem_append, List.mem_cons, List.mem_singleton, List.not_mem_nil,
      or_false, false_or, or_assoc] at he <;>
    repeat' first
      | (exact Or.inl ⟨_, rfl⟩)
      | (exact Or.inr (Or.inl ⟨_, rfl⟩))
      | (exact Or.inr (Or.inr (Or.inl ⟨_, rfl⟩)))
      | (exact (handle_transcript_events_shape s o t e he).elim
          (fun h => Or.inl h)
          (fun hrp => Or.inr (Or.inr (Or.inr hrp))))
      | (rcases he with he | he)

theorem pipelineBody_pushed_ne_nil (s : Settings) (o : Oracle) (r : List Item)
    (h : (pipelineBody s o).pushed = some r) : r ≠ [] := by
  rcases pipelineBody_core s o with ⟨_, _, hp⟩ | ⟨t, _, _, _, hp⟩
  · rw [hp] at h
    exact absurd h (by simp)
  · rw [hp] at h
    exact handle_transcript_pushed_ne_nil s o t r h

theorem run_pipeline_events_eq (s : Settings) (o : Oracle) (st : ControllerState) :
    (run_pipeline s o st).events = (pipelineBody s o).events ++ cleanupEvents := rfl

theorem run_pipeline_results_mem (s : Settings) (o : Oracle) (st : ControllerState)
    (r : List Item) (h : Event.results r ∈ (run_pipeline s o st).events) :
    (pipelineBody s o).pushed = some r ∧ r ≠ [] := by
  rw [run_pipeline_events_eq] at h
  rcases List.mem_append.mp h with h | h
  · rcases pipelineBody_events_shape s o _ h with ⟨m, hm⟩ | ⟨b, hb⟩ | ⟨u, hu⟩ | ⟨r2, hr, hp⟩
    · exact absurd hm (by simp)
    · exact absurd hb (by simp)
    · exact absurd hu (by simp)
    · have : r2 = r := by
        injection hr.symm
      subst this
      exact ⟨hp, pipelineBody_pushed_ne_nil s o r2 hp⟩
  · simp [cleanupEvents] at h

theorem run_pipeline_status_true_not_mem (s : Settings) (o : Oracle)
    (st : ControllerState) :
    Event.status true ∉ (run_pipeline s o st).events := by
  intro h
  rw [run_pipeline_events_eq] at h
  rcases List.mem_append.mp h with h | h
  · rcases pipelineBody_events_shape s o _ h with ⟨m, hm⟩ | ⟨b, hb⟩ | ⟨u, hu⟩ | ⟨r, hr, _⟩
    · exact Event.noConfusion hm
    · exact Event.noConfusion hb
    · exact Event.noConfusion hu
    · exact Event.noConfusion hr
  · simp [cleanupEvents] at h


/-! ## C2, C3, C4, C7 -/

/-- C2 counterexample: on a run cancelled during capture, the code logs
"Recording cancelled" from the exception handler *before* cleanup emits
`RecordingChanged(false)`; the only `recording false` event sits after
the cancelled log, so the claimed precedence (RecordingChanged(false)
before the cancelled log) is false on this concrete run. -/
theorem c2_cancelled_counterexample :
    (run_pipeline demoSettings cancelOracle busyState).events =
      [Event.recording true,
       Event.log "Recording audio snippet for up to 5 seconds...",
       Event.log "Recording cancelled",
       Event.recording false, Event.status false, Event.log "Assistant stopped"] ∧
    (run_pipeline demoSettings cancelOracle busyState).events.indexOf
        (Event.log "Recording cancelled") <
      (run_pipeline demoSettings cancelOracle busyState).events.indexOf
        (Event.recording false) ∧
    Event.recording false ∈ (run_pipeline demoSettings cancelOracle busyState).events ∧
    Event.log "Recording cancelled" ∈
      (run_pipeline demoSettings cancelOracle busyState).events :=
  ⟨by decide, by decide, by decide, by decide⟩

/-- C2 amended: when `stop()` is observed during capture, the run emits
exactly the recording-start events, then the "Recording cancelled" log,
then (from cleanup) `RecordingChanged(false)` and `StatusChanged(false)`
— the cancelled log *precedes* `RecordingChanged(false)` — with no
search attempted, no `ResultsChanged`, and the pipeline left idle. -/
theorem c2_cancelled_amended (s : Settings) (o : Oracle) (st : ControllerState)
    (h : o.capture = .cancelled) :
    (run_pipeline s o st).events =
      [Event.recording true,
       Event.log ("Recording audio snippet for up to " ++
         toString s.audio_default_duration ++ " seconds..."),
       Event.log "Recording cancelled",
       Event.recording false, Event.status false, Event.log "Assistant stopped"] ∧
    (run_pipeline s o st).calls = [] ∧
    (run_pipeline s o st).prompts = [] ∧
    (∀ r, Event.results r ∉ (run_pipeline s o st).events) ∧
    (run_pipeline s o st).state.listening = false := by
  have hb : pipelineBody s o =
      ⟨[Event.recording true,
        Event.log ("Recording audio snippet for up to " ++
          toString s.audio_default_duration ++ " seconds..."),
        Event.log "Recording cancelled"], [], [], none, none⟩ := by
    unfold pipelineBody
    rw [h]
    rfl
  have hev : (run_pipeline s o st).events = (pipelineBody s o).events ++ cleanupEvents :=
    rfl
  refine ⟨?_, ?_, ?_, ?_, rfl⟩
  · rw [hev, hb]
    rfl
  · show (pipelineBody s o).calls = []
    rw [hb]
  · show (pipelineBody s o).prompts = []
    rw [hb]
  · intro r hr
    rw [hev, hb] at hr
    simp [cleanupEvents] at hr

/-- C2 amended witness: the amended theorem applied to the concrete
cancelled run. -/
theorem c2_cancelled_amended_witness :
    (run_pipeline demoSettings cancelOracle busyState).calls = [] ∧
    (run_pipeline demoSettings cancelOracle busyState).prompts = [] ∧
    (run_pipeline demoSettings cancelOracle busyState).state.listening = false := by
  have h := c2_cancelled_amended demoSettings cancelOracle busyState rfl
  exact ⟨h.2.1, h.2.2.1, h.2.2.2.2⟩

/-- C3: for every environment and every exit path, the cleanup sequence
runs: this run's clip file no longer exists, the pipeline is no longer
listening, the cancellation flag is set, and the trace ends with
`RecordingChanged(false)`, `StatusChanged(false)` and the "Assistant
stopped" log. -/
theorem c3_cleanup_always (s : Settings) (o : Oracle) (st : ControllerState) :
    (run_pipeline s o st).clipExists = false ∧
    (run_pipeline s o st).state.listening = false ∧
    (run_pipeline s o st).state.stopEventSet = true ∧
    cleanupEvents <:+ (run_pipeline s o st).events ∧
    Event.recording false ∈ (run_pipeline s o st).events ∧
    Event.status false ∈ (run_pipeline s o st).events ∧
    Event.log "Assistant stopped" ∈ (run_pipeline s o st).events := by
  have hev : (run_pipeline s o st).events = (pipelineBody s o).events ++ cleanupEvents :=
    rfl
  refine ⟨?_, rfl, rfl, ⟨(pipelineBody s o).events, hev.symm⟩, ?_, ?_, ?_⟩
  · cases hsn : (pipelineBody s o).snippet <;>
      simp [run_pipeline, hsn, unlinkBestEffort]
  all_goals
    rw [hev]
    exact List.mem_append_right _ (by simp [cleanupEvents])

theorem searchAndRetry_two_prompts_pushed_none (o : Oracle)
    (intent : Option SearchIntent) (q : String)
    (h : (searchAndRetry o intent q).prompts = [true, false]) :
    (searchAndRetry o intent q).pushed = none := by
  unfold searchAndRetry at h ⊢
  dsimp only at h ⊢
  split_ifs at h ⊢ <;> simp_all

/-- C4: Expand is offered at most once per run — the prompt flags are
`[]`, `[true]` or `[true, false]` (first prompt with
`expand_allowed = true`, any later prompt with `false`), at most one
Search Port call carries the expand mode; choosing Expand at the first
prompt re-runs the search exactly once with the expand flag; any other
first choice ends the run with no `ResultsChanged` emitted and the
result set unchanged. -/
theorem c4_expand_once (s : Settings) (o : Oracle) (st : ControllerState) :
    ((run_pipeline s o st).prompts = [] ∨ (run_pipeline s o st).prompts = [true] ∨
      (run_pipeline s o st).prompts = [true, false]) ∧
    (run_pipeline s o st).calls.countP SearchCall.isExpand ≤ 1 ∧
    ((run_pipeline s o st).prompts ≠ [] → promptRetry o.retryHandler true = "expand" →
      (run_pipeline s o st).calls.length = 2 ∧
      (run_pipeline s o st).calls.countP SearchCall.isExpand = 1) ∧
    ((run_pipeline s o st).prompts ≠ [] → promptRetry o.retryHandler true ≠ "expand" →
      (∀ r, Event.results r ∉ (run_pipeline s o st).events) ∧
      (run_pipeline s o st).state.latestResults = st.latestResults) ∧
    ((run_pipeline s o st).prompts = [true, false] →
      (∀ r, Event.results r ∉ (run_pipeline s o st).events) ∧
      (run_pipeline s o st).state.latestResults = st.latestResults) := by
  have hp_eq : (run_pipeline s o st).prompts = (pipelineBody s o).prompts := rfl
  have hc_eq : (run_pipeline s o st).calls = (pipelineBody s o).calls := rfl
  have hl_eq : (run_pipeline s o st).state.latestResults =
      (pipelineBody s o).pushed.getD st.latestResults := rfl
  refine ⟨?_, ?_, ?_, ?_, ?_⟩
  · rw [hp_eq]
    rcases pipelineBody_core s o with ⟨h1, _, _⟩ | ⟨t, _, h1, _, _⟩
    · rw [h1]
      exact Or.inl rfl
    · rw [h1]
      exact handle_transcript_prompts_shape s o t
  · rw [hc_eq]
    rcases pipelineBody_core s o with ⟨_, h1, _⟩ | ⟨t, _, _, h1, _⟩
    · rw [h1]
      simp
    · rw [h1]
      rcases handle_transcript_cases s o t with ⟨_, heq⟩ | ⟨q, _, heq⟩
      · simp [heq]
      · rw [heq]
        exact searchAndRetry_countP_expand_le o (intentStage s o q).1 q
  · intro hne hch
    rw [hp_eq] at hne
    rcases pipelineBody_core s o with ⟨h1, _, _⟩ | ⟨t, _, h1, h2, _⟩
    · rw [h1] at hne
      exact absurd rfl hne
    · rw [h1] at hne
      rcases handle_transcript_cases s o t with ⟨_, heq⟩ | ⟨q, _, heq⟩
      · rw [heq] at hne
        exact absurd rfl hne
      · have hne2 : (searchAndRetry o (intentStage s o q).1 q).prompts ≠ [] := by
          simpa [heq] using hne
        have hempty := (searchAndRetry_prompts_ne_nil_iff o (intentStage s o q).1 q).mp hne2
        have hcalls := searchAndRetry_expand_calls o (intentStage s o q).1 q hempty hch
        rw [hc_eq, h2]
        constructor
        · simp [heq, hcalls]
        · simp [heq, hcalls, List.countP_cons, searchDispatch_isExpand_false,
            searchDispatch_isExpand_true]
  · intro hne hch
    rw [hp_eq] at hne
    rcases pipelineBody_core s o with ⟨h1, _, _⟩ | ⟨t, _, h1, h2, h3⟩
    · rw [h1] at hne
      exact absurd rfl hne
    · rw [h1] at hne
      rcases handle_transcript_cases s o t with ⟨_, heq⟩ | ⟨q, _, heq⟩
      · rw [heq] at hne
        exact absurd rfl hne
      · have hne2 : (searchAndRetry o (intentStage s o q).1 q).prompts ≠ [] := by
          simpa [heq] using hne
        have hempty := (searchAndRetry_prompts_ne_nil_iff o (intentStage s o q).1 q).mp hne2
        have hnoexp := searchAndRetry_no_expand o (intentStage s o q).1 q hempty hch
        have hpush : (pipelineBody s o).pushed = none := by
          rw [h3, heq]
          exact hnoexp.1
        constructor
        · intro r hr
          have := (run_pipeline_results_mem s o st r hr).1
          rw [hpush] at this
          exact Option.noConfusion this
        · rw [hl_eq, hpush]
          rfl
  · intro htwo
    rw [hp_eq] at htwo
    rcases pipelineBody_core s o with ⟨h1, _, _⟩ | ⟨t, _, h1, h2, h3⟩
    · rw [h1] at htwo
      exact absurd htwo (by simp)
    · rw [h1] at htwo
      rcases handle_transcript_cases s o t with ⟨_, heq⟩ | ⟨q, _, heq⟩
      · rw [heq] at htwo
        exact absurd htwo (by simp)
      · have htwo2 : (searchAndRetry o (intentStage s o q).1 q).prompts = [true, false] := by
          simpa [heq] using htwo
        have hpush : (pipelineBody s o).pushed = none := by
          rw [h3, heq]
          exact searchAndRetry_two_prompts_pushed_none o (intentStage s o q).1 q htwo2
        constructor
        · intro r hr
          have := (run_pipeline_results_mem s o st r hr).1
          rw [hpush] at this
          exact Option.noConfusion this
        · rw [hl_eq, hpush]
          rfl


/-- C4 witness: with empty searches and the default handler (Expand then
Retry) the prompts are `[true, false]` and both search calls happen, one
expanded; with a host that answers "cancel", one prompt is issued, no
`ResultsChanged` is emitted and the result set stays empty. -/
theorem c4_expand_once_witness :
    (run_pipeline demoSettings emptySearchOracle busyState).prompts = [true, false] ∧
    (run_pipeline demoSettings emptySearchOracle busyState).calls.length = 2 ∧
    (run_pipeline demoSettings emptySearchOracle busyState).calls.countP
      SearchCall.isExpand = 1 ∧
    (run_pipeline demoSettings errorSearchOracle busyState).prompts = [true] ∧
    (∀ r, Event.results r ∉ (run_pipeline demoSettings errorSearchOracle busyState).events) ∧
    (∀ r, Event.results r ∉ (run_pipeline demoSettings emptySearchOracle busyState).events) := by
  have h1 := (c4_expand_once demoSettings emptySearchOracle busyState).2.2.1
    (by decide) rfl
  have h2 := (c4_expand_once demoSettings errorSearchOracle busyState).2.2.2.1
    (by decide) (by decide)
  have h3 := (c4_expand_once demoSettings emptySearchOracle busyState).2.2.2.2
    (by decide)
  exact ⟨by decide, h1.1, h1.2, by decide, h2.1, h3.1⟩

/-- C7: `start()` while already listening is a no-op (no events, no
background run); `start()` from idle spawns the single background run
and the whole trace contains exactly one `StatusChanged(true)` and
exactly one `ResultsChanged([])`. -/
theorem c7_start_guard (s : Settings) (o : Oracle) (st : ControllerState) :
    (st.listening = true → start s o st = ⟨[], [], [], false, st⟩) ∧
    (st.listening = false →
      (start s o st).ranPipeline = true ∧
      (start s o st).events.count (Event.status true) = 1 ∧
      (start s o st).events.count (Event.results ([] : List Item)) = 1) := by
  constructor
  · intro h
    unfold start
    rw [if_pos h]
  · intro h
    unfold start
    rw [if_neg (by simp [h])]
    refine ⟨rfl, ?_, ?_⟩
    · dsimp only
      rw [List.count_append]
      rw [List.count_eq_zero.mpr (run_pipeline_status_true_not_mem s o _)]
      simp [List.count_cons]
    · dsimp only
      rw [List.count_append]
      have hnot : Event.results ([] : List Item) ∉
          (run_pipeline s o ⟨true, false, []⟩).events := by
        intro hmem
        exact (run_pipeline_results_mem s o _ _ hmem).2 rfl
      rw [List.count_eq_zero.mpr hnot]
      simp [List.count_cons]

/-- C7 witness: the guard at a busy and at an idle controller with a
concrete environment. -/
theorem c7_start_guard_witness :
    start demoSettings foundOracle busyState = ⟨[], [], [], false, busyState⟩ ∧
    (start demoSettings foundOracle idleState).ranPipeline = true ∧
    (start demoSettings foundOracle idleState).events.count (Event.status true) = 1 ∧
    (start demoSettings foundOracle idleState).events.count
      (Event.results ([] : List Item)) = 1 := by
  have h1 := (c7_start_guard demoSettings foundOracle busyState).1 rfl
  have h2 := (c7_start_guard demoSettings foundOracle idleState).2 rfl
  exact ⟨h1, h2.1, h2.2.1, h2.2.2⟩


end ZVA
